import Mathlib

/-!
Shallow embedding of `src/dear_imgui_renderer/src/glr.rs` (crate
`dear_imgui_renderer`, module `glr`): a thin safe layer over the `glow`
OpenGL bindings.  GL driver state is made explicit as a `GLState` record,
side effects of the wrappers are modelled as explicit state passing and,
where a claim is about the sequence of driver commands issued, as traces
of call events.  Machine integers that matter here (`i32` viewport
components, `u32` object names) are modelled as `Int`/`Nat`; none of the
verified code performs arithmetic that can overflow.
-/

namespace Glr

/-- The raw `i32` 4-tuple read by `glGetIntegerv(GL_VIEWPORT)` and written
by `glViewport` (`PushViewport` in glr.rs stores it as `[i32; 4]`). -/
structure Viewport where
  x : Int
  y : Int
  w : Int
  h : Int
  deriving Repr, DecidableEq

/-- The slice of mutable GL server state that the guard types of glr.rs
touch: the viewport rectangle, the framebuffer binding of each of the two
framebuffer targets (raw `u32` names, `0` being the default framebuffer,
exactly what `glGetIntegerv(GL_*_FRAMEBUFFER_BINDING)` returns), and the
renderbuffer binding of `GL_RENDERBUFFER`. -/
structure GLState where
  viewport : Viewport
  drawFramebuffer : Nat
  readFramebuffer : Nat
  renderbuffer : Option Nat
  deriving Repr, DecidableEq

/-- `glViewport`. -/
def glViewport (s : GLState) (v : Viewport) : GLState :=
  { s with viewport := v }

/-- The two framebuffer targets (`BinderFBODraw` / `BinderFBORead` in
glr.rs, i.e. `GL_DRAW_FRAMEBUFFER` / `GL_READ_FRAMEBUFFER`). -/
inductive FBTarget where
  | draw
  | read
  deriving Repr, DecidableEq

/-- `glGetIntegerv(TGT::GET_BINDING)`: the raw framebuffer name bound to
the target, `0` for the default framebuffer. -/
def GLState.fbBinding (s : GLState) : FBTarget → Nat
  | .draw => s.drawFramebuffer
  | .read => s.readFramebuffer

/-- `glow::bind_framebuffer(TGT::TARGET, o)`: `none` binds the default
framebuffer (raw name `0`), `some n` binds the object named `n`. -/
def GLState.bindFramebuffer (s : GLState) (tgt : FBTarget) (o : Option Nat) : GLState :=
  match tgt with
  | .draw => { s with drawFramebuffer := o.getD 0 }
  | .read => { s with readFramebuffer := o.getD 0 }

/-- `glow::bind_renderbuffer(GL_RENDERBUFFER, o)`. -/
def GLState.bindRenderbuffer (s : GLState) (o : Option Nat) : GLState :=
  { s with renderbuffer := o }

/-- `glr::PushViewport`: RAII guard storing the previous viewport
(`prev: [i32; 4]`). -/
structure PushViewport where
  prev : Viewport
  deriving Repr, DecidableEq

namespace PushViewport

/-- `PushViewport::new`: reads `GL_VIEWPORT` into `prev`; the GL state is
not modified. -/
def new (s : GLState) : PushViewport × GLState :=
  ({ prev := s.viewport }, s)

/-- `PushViewport::viewport`: forwards to `glViewport`. -/
def viewport (_pv : PushViewport) (s : GLState) (x y w h : Int) : GLState :=
  glViewport s ⟨x, y, w, h⟩

/-- `PushViewport::push`: `Self::new` followed by `pv.viewport(..)`. -/
def push (s : GLState) (x y w h : Int) : PushViewport × GLState :=
  let (pv, s1) := new s
  (pv, pv.viewport s1 x y w h)

/-- `Drop for PushViewport`: `gl.viewport(prev[0], prev[1], prev[2],
prev[3])`. -/
def drop (pv : PushViewport) (s : GLState) : GLState :=
  glViewport s pv.prev

end PushViewport

/-- A `glow::NativeFramebuffer` wraps a `NonZeroU32`, so a `glr::Framebuffer`
handle always carries a nonzero raw name. -/
structure Framebuffer where
  id : Nat
  id_pos : 0 < id
  deriving Repr

/-- `glr::BinderFramebuffer<TGT>`: stores the target and
`id: Option<glow::Framebuffer>` to restore on drop. -/
structure BinderFramebuffer where
  tgt : FBTarget
  id : Option Nat
  deriving Repr, DecidableEq

namespace BinderFramebuffer

/-- `NonZeroU32::new(id).map(NativeFramebuffer)`: `0` becomes `none`. -/
def ofRaw (n : Nat) : Option Nat :=
  if n = 0 then none else some n

/-- `BinderFramebuffer::new`: reads the current binding of the target and
stores it (as an `Option`, `0` mapping to `none`); the GL state is not
modified. -/
def new (tgt : FBTarget) (s : GLState) : BinderFramebuffer × GLState :=
  ({ tgt := tgt, id := ofRaw (s.fbBinding tgt) }, s)

/-- `BinderFramebuffer::bind`: binds `fb` to the target and stores
`id := None`. -/
def bind (tgt : FBTarget) (fb : Framebuffer) (s : GLState) : BinderFramebuffer × GLState :=
  ({ tgt := tgt, id := none }, s.bindFramebuffer tgt (some fb.id))

/-- `BinderFramebuffer::rebind`: binds `fb` without touching the stored
restore value. -/
def rebind (b : BinderFramebuffer) (fb : Framebuffer) (s : GLState) : GLState :=
  s.bindFramebuffer b.tgt (some fb.id)

/-- `Drop for BinderFramebuffer`: `gl.bind_framebuffer(TGT::TARGET,
self.id)`. -/
def drop (b : BinderFramebuffer) (s : GLState) : GLState :=
  s.bindFramebuffer b.tgt b.id

end BinderFramebuffer

/-- A `glow::NativeRenderbuffer` also wraps a `NonZeroU32`. -/
structure Renderbuffer where
  id : Nat
  id_pos : 0 < id
  deriving Repr

/-- `glr::BinderRenderbuffer`: holds only the context, no saved
binding. -/
structure BinderRenderbuffer where
  deriving Repr, DecidableEq

namespace BinderRenderbuffer

/-- `BinderRenderbuffer::bind`: binds `rb` to `GL_RENDERBUFFER`. -/
def bind (rb : Renderbuffer) (s : GLState) : BinderRenderbuffer × GLState :=
  (⟨⟩, s.bindRenderbuffer (some rb.id))

/-- `BinderRenderbuffer::rebind`. -/
def rebind (_b : BinderRenderbuffer) (rb : Renderbuffer) (s : GLState) : GLState :=
  s.bindRenderbuffer (some rb.id)

/-- `Drop for BinderRenderbuffer`: `bind_renderbuffer(GL_RENDERBUFFER,
None)`. -/
def drop (_b : BinderRenderbuffer) (s : GLState) : GLState :=
  s.bindRenderbuffer none

end BinderRenderbuffer

/-! ## Shader / program compilation (`Program::from_source`, `Shader::compile`) -/

/-- `glr::GLError`: a typed wrapper around the raw `glGetError` code. -/
structure GLError where
  code : Nat
  deriving Repr, DecidableEq

def VERTEX_SHADER : Nat := 0x8B31
def FRAGMENT_SHADER : Nat := 0x8B30
def GEOMETRY_SHADER : Nat := 0x8DD9

/-- `glow::ActiveUniform` / `glow::ActiveAttribute`: name, size and type
reported by the driver for one active variable. -/
structure ActiveVar where
  name : String
  size : Int
  vtype : Nat
  deriving Repr, DecidableEq

/-- An abstract GL driver, fixing the outcome of every driver query
`Program::from_source` and `Shader::compile` perform.  `errCode` is the
value `glGetError` reports after a failed operation. -/
structure Driver where
  createShaderOk : Nat → Bool
  compileOk : Nat → String → Bool
  shaderLog : Nat → String → String
  createProgramOk : Bool
  newProgramId : Nat
  linkOk : Bool
  linkLog : String
  activeUniforms : List (Option ActiveVar)
  uniformLocation : String → Option Nat
  activeAttribs : List (Option ActiveVar)
  attribLocation : String → Option Nat
  errCode : Nat

/-- `glr::Shader`: a compiled shader handle (abstracted by the stage and
source it was compiled from). -/
structure Shader where
  ty : Nat
  source : String
  deriving Repr, DecidableEq

/-- `Shader::compile`: creates a shader, uploads the source and compiles;
on compile failure prints the driver info log to stderr and returns
`Err(GLError(gl.get_error()))`.  The second component is the list of
stderr lines emitted. -/
def Shader.compile (d : Driver) (ty : Nat) (source : String) :
    Except GLError Shader × List String :=
  if d.createShaderOk ty then
    if d.compileOk ty source then
      (.ok ⟨ty, source⟩, [])
    else
      (.error ⟨d.errCode⟩, [d.shaderLog ty source])
  else
    (.error ⟨d.errCode⟩, [])

/-- `glr::Uniform`: one entry of the uniform catalog of a linked
program. -/
structure Uniform where
  name : String
  location : Nat
  size : Int
  utype : Nat
  deriving Repr, DecidableEq

/-- `glr::Attribute`: one entry of the attribute catalog of a linked
program. -/
structure Attribute where
  name : String
  location : Nat
  size : Int
  atype : Nat
  deriving Repr, DecidableEq

/-- `glr::Program`: program handle plus its uniform and attribute
catalogs. -/
structure Program where
  id : Nat
  uniforms : List Uniform
  attribs : List Attribute
  deriving Repr, DecidableEq

namespace Program

/-- The uniform-catalog loop of `from_source`: each index yields
`get_active_uniform` (skipped with `continue` when `None`), then
`get_uniform_location` (again skipped when `None`). -/
def uniformCatalog (d : Driver) : List Uniform :=
  d.activeUniforms.filterMap fun o =>
    o.bind fun ac =>
      (d.uniformLocation ac.name).map fun loc =>
        { name := ac.name, location := loc, size := ac.size, utype := ac.vtype }

/-- The attribute-catalog loop of `from_source`. -/
def attribCatalog (d : Driver) : List Attribute :=
  d.activeAttribs.filterMap fun o =>
    o.bind fun aa =>
      (d.attribLocation aa.name).map fun loc =>
        { name := aa.name, location := loc, size := aa.size, atype := aa.vtype }

/-- `Program::from_source`: purges the error status, compiles the vertex,
fragment and (optional) geometry stages with `?`-propagation, creates and
links the program, and on link failure prints the program info log and
returns `Err(GLError(gl.get_error()))`; only on full success is a
`Program` with its catalogs returned.  The second component is the list
of stderr lines emitted. -/
def from_source (d : Driver) (vertex fragment : String) (geometry : Option String) :
    Except GLError Program × List String :=
  match Shader.compile d VERTEX_SHADER vertex with
  | (.error e, log) => (.error e, log)
  | (.ok _vsh, log1) =>
    match Shader.compile d FRAGMENT_SHADER fragment with
    | (.error e, log) => (.error e, log1 ++ log)
    | (.ok _fsh, log2) =>
      let gres : Except GLError (Option Shader) × List String :=
        match geometry with
        | some source =>
          match Shader.compile d GEOMETRY_SHADER source with
          | (.error e, log) => (.error e, log)
          | (.ok gsh, log) => (.ok (some gsh), log)
        | none => (.ok none, [])
      match gres with
      | (.error e, log) => (.error e, log1 ++ log2 ++ log)
      | (.ok _gsh, log3) =>
        let logs := log1 ++ log2 ++ log3
        if d.createProgramOk then
          if d.linkOk then
            (.ok { id := d.newProgramId
                   uniforms := uniformCatalog d
                   attribs := attribCatalog d }, logs)
          else
            (.error ⟨d.errCode⟩, logs ++ [d.linkLog])
        else
          (.error ⟨d.errCode⟩, logs)

end Program

/-! ## Uniform fields (`UniformField` impls) -/

/-- The GL uniform-upload calls the `UniformField` impls can issue. -/
inductive UniformCall where
  | uniformMatrix4fv (location : Nat) (transpose : Bool)
  | uniformMatrix3fv (location : Nat) (transpose : Bool)
  | uniform3fv (location : Nat)
  | uniform1i (location : Nat) (v : Int)
  | uniform1f (location : Nat)
  | uniform4f (location : Nat)
  deriving Repr, DecidableEq

/-- Outcome of running a `UniformField::apply`: either a normal return
with the list of GL calls issued, or a panic (Rust `todo!()`). -/
inductive ApplyOutcome where
  | calls (cs : List UniformCall)
  | panicked (msg : String)
  deriving Repr, DecidableEq

/-- The value of a uniform field, one constructor per `UniformField`
impl in glr.rs; `arr` is the `[T; N]` impl. -/
inductive UniformValue where
  | matrix4
  | matrix3
  | vector3
  | int32 (v : Int)
  | float32
  | rgba
  | arr (elems : List UniformValue)
  deriving Repr

/-- `UniformField::apply(&self, gl, count, location)` for each impl.
Every scalar impl issues exactly one upload call; the `[T; N]` impl body
is `todo!()`, which panics with "not yet implemented". -/
def UniformValue.apply (v : UniformValue) (_count : Int) (location : Nat) : ApplyOutcome :=
  match v with
  | .matrix4 => .calls [.uniformMatrix4fv location false]
  | .matrix3 => .calls [.uniformMatrix3fv location false]
  | .vector3 => .calls [.uniform3fv location]
  | .int32 i => .calls [.uniform1i location i]
  | .float32 => .calls [.uniform1f location]
  | .rgba => .calls [.uniform4f location]
  | .arr _ => .panicked "not yet implemented"

/-! ## Draw traces (`Program::draw`, `AttribProviderList`) -/

def ARRAY_BUFFER : Nat := 0x8892

/-- The GL commands issued by `Program::draw`, `AttribProviderList::bind`
implementations and `DynamicVertexArray::bind_buffer`.  Buffer upload
sizes are counted in records of the attribute type (the byte size is
that times `size_of::<A>()`). -/
inductive GLCmd where
  | useProgram (id : Nat)
  | applyUniform (name : String)
  | bindBuffer (target : Nat) (bufId : Nat)
  | bufferData (target : Nat) (records : Nat)
  | bufferSubData (target : Nat) (offset : Nat) (records : Nat)
  | enableVertexAttribArray (loc : Nat)
  | vertexAttribPointer (loc : Nat)
  | drawArrays (primitive : Nat) (first : Nat) (count : Nat)
  | getError
  deriving Repr, DecidableEq

/-- An implementation of the `AttribProviderList` trait, abstracted by
what the trait exposes: `len()` and `bind(program)`, the latter returning
the trace of GL commands it issues together with the `KeepType` token it
hands back to the caller. -/
structure AttribProviderList (K : Type) where
  len : Nat
  bindCmds : Program → List GLCmd × K

/-- The trait's provided method `is_empty(&self) -> bool { self.len() == 0 }`. -/
def AttribProviderList.isEmpty (a : AttribProviderList K) : Bool :=
  a.len == 0

/-- The `impl AttribProviderList for (A0, A1)`: `len` is the minimum of
the two components, `bind` binds the first then the second and keeps both
tokens. -/
def AttribProviderList.pair (a0 : AttribProviderList K0) (a1 : AttribProviderList K1) :
    AttribProviderList (K0 × K1) :=
  { len := min a0.len a1.len
    bindCmds := fun p =>
      ((a0.bindCmds p).fst ++ (a1.bindCmds p).fst,
       ((a0.bindCmds p).snd, (a1.bindCmds p).snd)) }

/-- `Program::draw`: early return when the attribute list is empty,
otherwise `use_program`, one `uniforms.apply(u)` per catalog entry (the
macro-generated `UniformProvider`, abstracted as `up`), the attribute
bind, the `draw_arrays` call sized by `attribs.len()`, and the final
`check_gl` error query. -/
def Program.draw (p : Program) (up : Uniform → List GLCmd)
    (attribs : AttribProviderList K) (primitive : Nat) : List GLCmd :=
  if attribs.isEmpty then
    []
  else
    [.useProgram p.id]
      ++ p.uniforms.foldr (fun u acc => up u ++ acc) []
      ++ (attribs.bindCmds p).fst
      ++ [.drawArrays primitive 0 attribs.len, .getError]

/-! ## `DynamicVertexArray` -/

/-- `glr::DynamicVertexArray<A>`: local data, the GL buffer name, the
record count of the last full upload (`buf_len: Cell<usize>`), and the
dirty flag (`dirty: Cell<bool>`). -/
structure DynamicVertexArray (A : Type) where
  data : List A
  bufId : Nat
  buf_len : Nat
  dirty : Bool
  deriving Repr, DecidableEq

namespace DynamicVertexArray

/-- `DynamicVertexArray::from_data` (and `new`, which passes
`Vec::new()`): fresh buffer, `buf_len := 0`, dirty. -/
def from_data (bufId : Nat) (data : List A) : DynamicVertexArray A :=
  { data := data, bufId := bufId, buf_len := 0, dirty := true }

/-- `DynamicVertexArray::set`: marks dirty and replaces the data. -/
def set (v : DynamicVertexArray A) (data : List A) : DynamicVertexArray A :=
  { v with dirty := true, data := data }

/-- `DynamicVertexArray::bind_buffer`: early return on empty data;
otherwise bind the buffer and, when dirty, either a full
`buffer_data_u8_slice` reallocation (when the data outgrew `buf_len`,
recording the new length) or a whole-range `buffer_sub_data_u8_slice`
at offset 0, clearing the dirty flag either way.  Returns the updated
cells and the trace of GL commands issued. -/
def bind_buffer (v : DynamicVertexArray A) : DynamicVertexArray A × List GLCmd :=
  if v.data.isEmpty then
    (v, [])
  else if v.dirty then
    if v.buf_len < v.data.length then
      ({ v with buf_len := v.data.length, dirty := false },
       [.bindBuffer ARRAY_BUFFER v.bufId, .bufferData ARRAY_BUFFER v.data.length])
    else
      ({ v with dirty := false },
       [.bindBuffer ARRAY_BUFFER v.bufId, .bufferSubData ARRAY_BUFFER 0 v.data.length])
  else
    (v, [.bindBuffer ARRAY_BUFFER v.bufId])

/-- `impl Index<usize>`: `&self.data[index]`, an immutable borrow with no
cell access; `none` models the out-of-bounds panic. -/
def read (v : DynamicVertexArray A) (i : Nat) : Option A :=
  v.data.get? i

/-- A store through `impl IndexMut<usize>`: `index_mut` sets the dirty
flag and returns `&mut self.data[index]`, through which `a` is written. -/
def write (v : DynamicVertexArray A) (i : Nat) (a : A) : DynamicVertexArray A :=
  { v with dirty := true, data := v.data.set i a }

/-- The CPU-side operations on a `DynamicVertexArray` other than
`bind_buffer`, for stating that the dirty flag stays set across them. -/
inductive Op (A : Type) where
  | write (i : Nat) (a : A)
  | setData (data : List A)
  | read (i : Nat)

/-- State effect of one operation; `read` borrows immutably and leaves
the state unchanged. -/
def Op.step (v : DynamicVertexArray A) : Op A → DynamicVertexArray A
  | .write i a => v.write i a
  | .setData d => v.set d
  | .read _ => v

end DynamicVertexArray

/-! ## `try_renderbuffer_storage_multisample` -/

/-- Driver interactions of the multisample probe: the `gl.get_error()`
purge before an attempt, and the `renderbuffer_storage_multisample`
attempt itself (target, internal format, width and height are fixed by
the caller and folded into the driver model). -/
inductive MSCall where
  | purgeError
  | storageMultisample (samples : Int)
  deriving Repr, DecidableEq

/-- The `for samples in all_samples` loop of
`try_renderbuffer_storage_multisample`: purge the error state, attempt
the storage allocation, and return the sample count as soon as
`gl.get_error() == 0`; `accepts` is whether the driver accepts a given
sample count without raising an error. -/
def msLoop (accepts : Int → Bool) : List Int → Option Int × List MSCall
  | [] => (none, [])
  | s :: rest =>
    if accepts s then
      (some s, [.purgeError, .storageMultisample s])
    else
      ((msLoop accepts rest).fst,
       [.purgeError, .storageMultisample s] ++ (msLoop accepts rest).snd)

/-- `glr::try_renderbuffer_storage_multisample`: the loop over
`all_samples = [16, 8, 4, 2]`. -/
def try_renderbuffer_storage_multisample (accepts : Int → Bool) :
    Option Int × List MSCall :=
  msLoop accepts [16, 8, 4, 2]

/-- The prefix of sample counts that actually get attempted: everything
up to and including the first accepted one. -/
def msAttempted (accepts : Int → Bool) : List Int → List Int
  | [] => []
  | s :: rest => if accepts s then [s] else s :: msAttempted accepts rest

/-- The driver trace the probe should produce: an error purge before the
storage attempt, for each attempted sample count. -/
def msExpectedTrace (accepts : Int → Bool) (l : List Int) : List MSCall :=
  (msAttempted accepts l).foldr
    (fun s acc => [.purgeError, .storageMultisample s] ++ acc) []

/-! ## `Texture` ownership -/

/-- `glr::Texture`: an owned GL texture handle. -/
structure Texture where
  id : Nat
  deriving Repr, DecidableEq

/-- The driver call a texture wrapper can issue at end of life. -/
inductive TexCall where
  | deleteTexture (id : Nat)
  deriving Repr, DecidableEq

/-- The two ways a `Texture` value is consumed: `Drop::drop` runs, or the
caller escapes the handle with `into_id`.  Rust's affine ownership is
what guarantees exactly one of these happens, exactly once. -/
inductive TextureEnd where
  | dropped
  | escaped
  deriving Repr, DecidableEq

namespace Texture

/-- `Drop for Texture`: `gl.delete_texture(self.id)`. -/
def drop (t : Texture) : List TexCall :=
  [.deleteTexture t.id]

/-- `Texture::into_id`: copies the id out and `std::mem::forget(self)`,
so the destructor never runs; the returned handle and the (empty) trace
of driver calls. -/
def into_id (t : Texture) : Nat × List TexCall :=
  (t.id, [])

/-- The driver calls the wrapper makes over its whole end of life, per
consumption mode. -/
def finalize (t : Texture) : TextureEnd → List TexCall
  | .dropped => t.drop
  | .escaped => t.into_id.snd

end Texture

end Glr

namespace Glr

/-! ## Theorems -/

/-- C1, counterexample: a `BinderFramebuffer` constructed with `bind`
does not restore the framebuffer that was bound at construction time.
With framebuffer 5 bound to the draw target, constructing the guard via
`bind` on framebuffer 7 and dropping it leaves the default framebuffer
(raw name 0) bound, not framebuffer 5. -/
theorem C1_bind_guard_counterexample :
    (((BinderFramebuffer.bind .draw ⟨7, Nat.succ_pos 6⟩
          ⟨⟨0, 0, 100, 100⟩, 5, 0, none⟩).fst).drop
        ((BinderFramebuffer.bind .draw ⟨7, Nat.succ_pos 6⟩
          ⟨⟨0, 0, 100, 100⟩, 5, 0, none⟩).snd)).fbBinding .draw = 0 ∧
    (⟨⟨0, 0, 100, 100⟩, 5, 0, none⟩ : GLState).fbBinding .draw = 5 := by
  decide

/-- C1, amended: destruction of a `PushViewport` (via `new` or `push`)
restores the viewport captured at construction, and destruction of a
`BinderFramebuffer` constructed via `new` restores the framebuffer
binding captured at construction (the default framebuffer exactly when
none was bound then), in every case regardless of the state reached
inside the scope (`s'` is arbitrary); but a `BinderFramebuffer`
constructed via `bind` captures nothing and its destruction always
restores the default (zero) framebuffer. -/
theorem C1_state_guard_restore :
    ∀ (s s' : GLState) (tgt : FBTarget) (fb : Framebuffer) (x y w h : Int),
      ((PushViewport.new s).fst.drop s').viewport = s.viewport ∧
      ((PushViewport.push s x y w h).fst.drop s').viewport = s.viewport ∧
      ((BinderFramebuffer.new tgt s).fst.drop s').fbBinding tgt = s.fbBinding tgt ∧
      ((BinderFramebuffer.bind tgt fb s).fst.drop s').fbBinding tgt = 0 := by
  intro s s' tgt fb x y w h
  refine ⟨rfl, rfl, ?_, ?_⟩
  · cases tgt <;>
      simp [BinderFramebuffer.new, BinderFramebuffer.drop, BinderFramebuffer.ofRaw,
        GLState.bindFramebuffer, GLState.fbBinding] <;>
      split <;> simp_all
  · cases tgt <;> rfl

/-- C8: `BinderRenderbuffer::bind` binds the given renderbuffer to the
renderbuffer target, and its destruction restores the binding to `none`
whatever the state before construction or at drop time was — never to a
previously bound renderbuffer. -/
theorem C8_renderbuffer_binder_unbinds :
    ∀ (s s' : GLState) (rb : Renderbuffer),
      ((BinderRenderbuffer.bind rb s).snd).renderbuffer = some rb.id ∧
      ((BinderRenderbuffer.bind rb s).fst.drop s').renderbuffer = none := by
  intro s s' rb
  exact ⟨rfl, rfl⟩

/-- C4: applying an array-typed uniform field (`impl UniformField for
[T; N]`, whose body is `todo!()`) always panics with "not yet
implemented"; it never returns normally with a list of GL calls. -/
theorem C4_array_uniform_field_panics :
    ∀ (elems : List UniformValue) (count : Int) (location : Nat),
      (UniformValue.arr elems).apply count location = .panicked "not yet implemented" ∧
      ∀ cs, (UniformValue.arr elems).apply count location ≠ .calls cs := by
  intro elems count location
  exact ⟨rfl, fun cs h => ApplyOutcome.noConfusion h⟩

/-- C9: a dropped `Texture` wrapper deletes its native handle exactly
once, while `into_id` (which forgets the wrapper so the destructor never
runs) returns the handle to the caller and deletes nothing. -/
theorem C9_texture_delete_once :
    ∀ (t : Texture),
      t.finalize .dropped = [.deleteTexture t.id] ∧
      (t.finalize .dropped).count (.deleteTexture t.id) = 1 ∧
      t.finalize .escaped = [] ∧
      t.into_id.fst = t.id := by
  intro t
  refine ⟨rfl, ?_, rfl, rfl⟩
  simp [Texture.finalize, Texture.drop]

/-- C2, counterexample: a freshly created empty `DynamicVertexArray` is
dirty with `data.length = 0 ≤ buf_len = 0`, yet `bind_buffer` performs
no sub-range update and leaves the dirty flag set (the empty early
return fires before the dirty branch). -/
theorem C2_bind_buffer_counterexample :
    (DynamicVertexArray.from_data 1 ([] : List Nat)).dirty = true ∧
    (DynamicVertexArray.from_data 1 ([] : List Nat)).data.length ≤
      (DynamicVertexArray.from_data 1 ([] : List Nat)).buf_len ∧
    (DynamicVertexArray.from_data 1 ([] : List Nat)).bind_buffer =
      (DynamicVertexArray.from_data 1 ([] : List Nat), []) ∧
    (DynamicVertexArray.from_data 1 ([] : List Nat)).bind_buffer.fst.dirty = true := by
  decide

/-- C2, amended: when the local data is nonempty, `bind_buffer` behaves
as claimed — not dirty: bind only, no upload, state unchanged; dirty
with `data.length ≤ buf_len`: a single whole-range `buffer_sub_data` at
offset 0 and `buf_len` unchanged; dirty with `data.length > buf_len`: a
full `buffer_data` reallocation recording the new length; the dirty flag
is cleared in both dirty cases.  When the data is empty, `bind_buffer`
returns immediately: no GL command at all and the dirty flag (and all
other state) unchanged. -/
theorem C2_bind_buffer_upload :
    ∀ {A : Type} (v : DynamicVertexArray A),
      (v.dirty = false → v.bind_buffer.fst = v ∧
        ∀ c ∈ v.bind_buffer.snd, c = .bindBuffer ARRAY_BUFFER v.bufId) ∧
      (v.data = [] → v.bind_buffer = (v, [])) ∧
      (v.dirty = true → v.data ≠ [] → v.data.length ≤ v.buf_len →
        v.bind_buffer = ({ v with dirty := false },
          [.bindBuffer ARRAY_BUFFER v.bufId,
           .bufferSubData ARRAY_BUFFER 0 v.data.length])) ∧
      (v.dirty = true → v.buf_len < v.data.length →
        v.bind_buffer = ({ v with buf_len := v.data.length, dirty := false },
          [.bindBuffer ARRAY_BUFFER v.bufId,
           .bufferData ARRAY_BUFFER v.data.length])) := by
  intro A v
  refine ⟨?_, ?_, ?_, ?_⟩
  · intro hnd
    unfold DynamicVertexArray.bind_buffer
    split
    · exact ⟨rfl, by simp⟩
    · rw [hnd]
      simp
  · intro he
    unfold DynamicVertexArray.bind_buffer
    simp [he]
  · intro hd hne hle
    unfold DynamicVertexArray.bind_buffer
    rw [hd]
    have hlt : ¬ v.buf_len < v.data.length := Nat.not_lt.mpr hle
    simp [List.isEmpty_iff, hne, hlt]
  · intro hd hlt
    have hne : v.data ≠ [] := by
      intro he
      rw [he] at hlt
      exact Nat.not_lt_zero _ hlt
    unfold DynamicVertexArray.bind_buffer
    rw [hd]
    simp [List.isEmpty_iff, hne, hlt]

/-- C2, witness for the amended theorem: a two-record array that was
fully uploaded (`buf_len = 2`) and then re-marked dirty takes the
sub-range branch. -/
theorem C2_bind_buffer_upload_witness :
    (⟨[10, 20], 1, 2, true⟩ : DynamicVertexArray Nat).bind_buffer =
      (⟨[10, 20], 1, 2, false⟩,
       [.bindBuffer ARRAY_BUFFER 1, .bufferSubData ARRAY_BUFFER 0 2]) :=
  (C2_bind_buffer_upload (⟨[10, 20], 1, 2, true⟩ : DynamicVertexArray Nat)).2.2.1
    rfl (by decide) (by decide)

/-- C7: an indexed write at a valid index followed by a read of the same
index returns the written value; every indexed write sets the dirty
flag; an indexed read leaves the state unchanged; and after a write the
dirty flag stays true across any further sequence of writes, sets and
reads (only `bind_buffer` clears it). -/
theorem C7_indexed_write_read_roundtrip :
    ∀ {A : Type} (v : DynamicVertexArray A) (i : Nat) (a : A)
      (ops : List (DynamicVertexArray.Op A)),
      (i < v.data.length → (v.write i a).read i = some a) ∧
      (v.write i a).dirty = true ∧
      DynamicVertexArray.Op.step v (.read i) = v ∧
      (ops.foldl DynamicVertexArray.Op.step (v.write i a)).dirty = true := by
  intro A v i a ops
  refine ⟨?_, rfl, rfl, ?_⟩
  · intro hi
    simp [DynamicVertexArray.write, DynamicVertexArray.read,
      List.getElem?_set_eq_of_lt _ hi]
  · have aux : ∀ (l : List (DynamicVertexArray.Op A)) (w : DynamicVertexArray A),
        w.dirty = true → (l.foldl DynamicVertexArray.Op.step w).dirty = true := by
      intro l
      induction l with
      | nil => intro w hw; exact hw
      | cons op rest ih =>
        intro w hw
        have hstep : (DynamicVertexArray.Op.step w op).dirty = true := by
          cases op <;> simp [DynamicVertexArray.Op.step, DynamicVertexArray.write,
            DynamicVertexArray.set, hw]
        exact ih _ hstep
    exact aux ops _ rfl

/-- The multisample probe loop returns the first accepted sample count
of its list and issues an error purge before each attempted storage
allocation, stopping at the first success. -/
theorem msLoop_spec (accepts : Int → Bool) (l : List Int) :
    msLoop accepts l = (l.find? accepts, msExpectedTrace accepts l) := by
  induction l with
  | nil => rfl
  | cons s rest ih =>
    by_cases h : accepts s
    · simp [msLoop, msExpectedTrace, msAttempted, h, List.find?_cons_of_pos]
    · simp [msLoop, msExpectedTrace, msAttempted, h, List.find?_cons_of_neg, ih]

/-- C5: `try_renderbuffer_storage_multisample` attempts the sample
counts 16, 8, 4, 2 in that order, purges the pending error state before
each attempt, returns the first sample count the driver accepts and
`none` when all four fail; on a driver accepting only 4 it returns 4
after exactly three attempts, each preceded by an error purge. -/
theorem C5_multisample_probe :
    ∀ accepts : Int → Bool,
      (try_renderbuffer_storage_multisample accepts).fst =
        List.find? accepts [16, 8, 4, 2] ∧
      (try_renderbuffer_storage_multisample accepts).snd =
        msExpectedTrace accepts [16, 8, 4, 2] ∧
      try_renderbuffer_storage_multisample (fun s => s == 4) =
        (some 4,
         [.purgeError, .storageMultisample 16, .purgeError, .storageMultisample 8,
          .purgeError, .storageMultisample 4]) := by
  intro accepts
  refine ⟨?_, ?_, by decide⟩
  · rw [try_renderbuffer_storage_multisample, msLoop_spec]
  · rw [try_renderbuffer_storage_multisample, msLoop_spec]

/-- C6: `Program::draw` on an attribute source list reporting zero
vertices returns at once with an empty command trace — the program is
not activated, no uniform is applied, nothing is bound and no draw call
is issued. -/
theorem C6_draw_empty_noop :
    ∀ {K : Type} (p : Program) (up : Uniform → List GLCmd)
      (attribs : AttribProviderList K) (primitive : Nat),
      attribs.len = 0 → p.draw up attribs primitive = [] := by
  intro K p up attribs primitive h
  simp [Program.draw, AttribProviderList.isEmpty, h]

/-- C6, witness: a zero-length attribute source whose bind would issue a
buffer command, drawn with a program holding one uniform, produces no
command at all. -/
theorem C6_draw_empty_noop_witness :
    Program.draw ⟨1, [⟨"mvp", 0, 1, 35676⟩], []⟩ (fun u => [.applyUniform u.name])
      (⟨0, fun _ => ([.bindBuffer ARRAY_BUFFER 3], ())⟩ : AttribProviderList Unit) 4 = [] :=
  C6_draw_empty_noop _ _ _ 4 rfl

/-- C10: the `(A0, A1)` attribute-list pair reports the minimum of the
two lengths, binds the first component and then the second, keeps both
binding tokens together, and when nonempty `Program::draw` issues a
draw call sized to the shorter stream. -/
theorem C10_pair_attrib_list :
    ∀ {K0 K1 : Type} (a0 : AttribProviderList K0) (a1 : AttribProviderList K1)
      (p : Program) (up : Uniform → List GLCmd) (primitive : Nat),
      (a0.pair a1).len = min a0.len a1.len ∧
      ((a0.pair a1).bindCmds p).fst = (a0.bindCmds p).fst ++ (a1.bindCmds p).fst ∧
      ((a0.pair a1).bindCmds p).snd = ((a0.bindCmds p).snd, (a1.bindCmds p).snd) ∧
      (0 < min a0.len a1.len →
        GLCmd.drawArrays primitive 0 (min a0.len a1.len) ∈
          p.draw up (a0.pair a1) primitive) := by
  intro K0 K1 a0 a1 p up primitive
  refine ⟨rfl, rfl, rfl, ?_⟩
  intro hpos
  have hne : min a0.len a1.len ≠ 0 := Nat.pos_iff_ne_zero.mp hpos
  simp [Program.draw, AttribProviderList.isEmpty, AttribProviderList.pair, hne]

/-- The conditions under which `Program::from_source` succeeds: every
driver object creation, every shader stage compile (the geometry stage
only when one is supplied) and the link must succeed. -/
def fromSourceOk (d : Driver) (v f : String) (g : Option String) : Prop :=
  d.createShaderOk VERTEX_SHADER = true ∧ d.compileOk VERTEX_SHADER v = true ∧
  d.createShaderOk FRAGMENT_SHADER = true ∧ d.compileOk FRAGMENT_SHADER f = true ∧
  (∀ src, g = some src → d.createShaderOk GEOMETRY_SHADER = true ∧
    d.compileOk GEOMETRY_SHADER src = true) ∧
  d.createProgramOk = true ∧ d.linkOk = true

/-- C3: a compile failure of any shader stage, or a link failure, makes
`Program::from_source` return a typed `GLError` after writing the
driver's info log to stderr; and a `Program` value (hence any uniform or
attribute catalog) is returned exactly when every stage compiled, the
program objects were created and the link succeeded. -/
theorem C3_from_source_no_partial_program :
    ∀ (d : Driver) (v f : String) (g : Option String),
      (d.createShaderOk VERTEX_SHADER = true → d.compileOk VERTEX_SHADER v = false →
        (Program.from_source d v f g).fst = .error ⟨d.errCode⟩ ∧
        d.shaderLog VERTEX_SHADER v ∈ (Program.from_source d v f g).snd) ∧
      (d.createShaderOk VERTEX_SHADER = true → d.compileOk VERTEX_SHADER v = true →
        d.createShaderOk FRAGMENT_SHADER = true → d.compileOk FRAGMENT_SHADER f = false →
        (Program.from_source d v f g).fst = .error ⟨d.errCode⟩ ∧
        d.shaderLog FRAGMENT_SHADER f ∈ (Program.from_source d v f g).snd) ∧
      (∀ src, g = some src →
        d.createShaderOk VERTEX_SHADER = true → d.compileOk VERTEX_SHADER v = true →
        d.createShaderOk FRAGMENT_SHADER = true → d.compileOk FRAGMENT_SHADER f = true →
        d.createShaderOk GEOMETRY_SHADER = true → d.compileOk GEOMETRY_SHADER src = false →
        (Program.from_source d v f g).fst = .error ⟨d.errCode⟩ ∧
        d.shaderLog GEOMETRY_SHADER src ∈ (Program.from_source d v f g).snd) ∧
      (d.createShaderOk VERTEX_SHADER = true → d.compileOk VERTEX_SHADER v = true →
        d.createShaderOk FRAGMENT_SHADER = true → d.compileOk FRAGMENT_SHADER f = true →
        (∀ src, g = some src → d.createShaderOk GEOMETRY_SHADER = true ∧
          d.compileOk GEOMETRY_SHADER src = true) →
        d.createProgramOk = true → d.linkOk = false →
        (Program.from_source d v f g).fst = .error ⟨d.errCode⟩ ∧
        d.linkLog ∈ (Program.from_source d v f g).snd) ∧
      ((Program.from_source d v f g).fst.isOk = true ↔ fromSourceOk d v f g) := by
  intro d v f g
  refine ⟨?_, ?_, ?_, ?_, ?_⟩
  · intro h1 h2
    simp [Program.from_source, Shader.compile, h1, h2]
  · intro h1 h2 h3 h4
    simp [Program.from_source, Shader.compile, h1, h2, h3, h4]
  · intro src hg h1 h2 h3 h4 h5 h6
    subst hg
    simp [Program.from_source, Shader.compile, h1, h2, h3, h4, h5, h6]
  · intro h1 h2 h3 h4 hg h5 h6
    cases g with
    | none =>
      simp [Program.from_source, Shader.compile, h1, h2, h3, h4, h5, h6]
    | some src =>
      obtain ⟨hg1, hg2⟩ := hg src rfl
      simp [Program.from_source, Shader.compile, h1, h2, h3, h4, hg1, hg2, h5, h6]
  · constructor
    · intro hok
      cases g with
      | none =>
        by_cases h1 : d.createShaderOk VERTEX_SHADER = true <;>
        by_cases h2 : d.compileOk VERTEX_SHADER v = true <;>
        by_cases h3 : d.createShaderOk FRAGMENT_SHADER = true <;>
        by_cases h4 : d.compileOk FRAGMENT_SHADER f = true <;>
        by_cases h5 : d.createProgramOk = true <;>
        by_cases h6 : d.linkOk = true <;>
        simp_all [Program.from_source, Shader.compile, fromSourceOk, Except.isOk, Except.toBool]
      | some src =>
        by_cases h1 : d.createShaderOk VERTEX_SHADER = true <;>
        by_cases h2 : d.compileOk VERTEX_SHADER v = true <;>
        by_cases h3 : d.createShaderOk FRAGMENT_SHADER = true <;>
        by_cases h4 : d.compileOk FRAGMENT_SHADER f = true <;>
        by_cases h7 : d.createShaderOk GEOMETRY_SHADER = true <;>
        by_cases h8 : d.compileOk GEOMETRY_SHADER src = true <;>
        by_cases h5 : d.createProgramOk = true <;>
        by_cases h6 : d.linkOk = true <;>
        simp_all [Program.from_source, Shader.compile, fromSourceOk, Except.isOk, Except.toBool]
    · intro hok
      obtain ⟨h1, h2, h3, h4, hg, h5, h6⟩ := hok
      cases g with
      | none =>
        simp [Program.from_source, Shader.compile, Except.isOk, Except.toBool, h1, h2, h3, h4, h5, h6]
      | some src =>
        obtain ⟨hg1, hg2⟩ := hg src rfl
        simp [Program.from_source, Shader.compile, Except.isOk, Except.toBool, h1, h2, h3, h4, hg1, hg2,
          h5, h6]

end Glr
